import Mathlib

/-!
Verification of the Royal Tailors database schema and admin UI
(CC-TAILOR repository) against its natural-language specification.

The development shallowly embeds:
  - the SQL schema of the migration file (tables customers, fabrics,
    garments, orders, the CHECK constraint on orders.status, the UNIQUE
    and NOT NULL constraints on orders.tracking_id, and the foreign keys
    of orders), with uuid columns modelled as Nat identifiers, timestamptz
    as Nat Unix epoch seconds, numeric as Int and jsonb payloads as opaque
    strings;
  - the two trigger functions set_tracking_id (BEFORE INSERT ON orders)
    and update_updated_at_column (BEFORE UPDATE ON all four tables);
  - the row level security policies of the migration;
  - the client side list filtering and the featured toggle of the React
    admin pages (AdminFabrics, AdminProducts) and of the storefront
    garments page.

Store mutations are modelled as functions returning Option Store, where
none means the statement is rejected by a constraint and the store is
left unchanged.  Reachable states are folds of an operation list over the
empty store.
-/

/-- The eight legal values of orders.status, exactly as enumerated in the
CHECK constraint of the orders table. -/
def validStatuses : List String :=
  ["confirmed", "fabric_ready", "cutting", "stitching", "embroidery",
   "quality_check", "ready", "completed"]

/-- The CHECK constraint on orders.status.  SQL CHECK constraints only
reject rows on which the predicate is false; a NULL status makes the IN
comparison unknown, so the constraint accepts it. -/
def statusCheck : Option String → Bool
  | none => true
  | some v => validStatuses.contains v

/-- PostgreSQL LPAD: pad the string on the left with the fill character up
to the requested length, truncating on the right when the string is
already longer. -/
def lpad (s : String) (n : Nat) (fill : Char) : String :=
  if n ≤ s.length then { data := s.data.take n }
  else { data := List.replicate (n - s.length) fill ++ s.data }

/-- The tracking code computed by the set_tracking_id trigger body:
the literal prefix RT followed by LPAD of the textual epoch of now().
The clock is modelled in whole Unix epoch seconds. -/
def trackingFor (now : Nat) : String :=
  "RT" ++ lpad (Nat.repr now) 10 '0'

/-- The set_tracking_id trigger function (BEFORE INSERT ON orders): when
the supplied tracking_id is NULL (none) or the empty string, replace it
with the generated code, otherwise keep the supplied value. -/
def set_tracking_id (supplied : Option String) (now : Nat) : String :=
  match supplied with
  | none => trackingFor now
  | some s => if s = "" then trackingFor now else s

/-- The zero padding described by the specification text: the epoch time
in whole seconds zero padded to 10 digits (no truncation).  Used to
compare the LPAD based generator of the code with the words of the
specification. -/
def specTrackingCode (now : Nat) : String :=
  "RT" ++ { data := List.replicate (10 - (Nat.repr now).length) '0'
              ++ (Nat.repr now).data }

/-- A row of the customers table. -/
structure CustomerRow where
  id : Nat
  name : String
  phone : String
  email : String
  measurements_json : String := "\x7b\x7d"
  created_at : Nat := 0
  updated_at : Nat := 0
deriving DecidableEq, Repr

/-- A row of the fabrics table. -/
structure FabricRow where
  id : Nat
  name : String
  material : String
  price_per_meter : Int := 0
  color : String
  stock : Int := 0
  images_json : String := "[]"
  featured : Bool := false
  description : Option String := none
  created_at : Nat := 0
  updated_at : Nat := 0
deriving DecidableEq, Repr

/-- A row of the garments table. -/
structure GarmentRow where
  id : Nat
  name : String
  category : String
  base_price : Int := 0
  description : Option String := none
  image_url : Option String := none
  customization_options : String := "\x7b\x7d"
  created_at : Nat := 0
  updated_at : Nat := 0
deriving DecidableEq, Repr

/-- A row of the orders table.  customer_id, fabric_id and garment_id are
nullable foreign keys; status is nullable text guarded by statusCheck;
tracking_id is NOT NULL (a non optional String) and UNIQUE. -/
structure OrderRow where
  id : Nat
  customer_id : Option Nat := none
  fabric_id : Option Nat := none
  garment_id : Option Nat := none
  tracking_id : String
  customizations_json : String := "\x7b\x7d"
  measurements_json : String := "\x7b\x7d"
  price : Int := 0
  status : Option String := some "confirmed"
  urgent : Bool := false
  special_instructions : Option String := none
  estimated_completion : Option Nat := none
  created_at : Nat := 0
  updated_at : Nat := 0
deriving DecidableEq, Repr

/-- The durable store: the four tables.  SQL tables are unordered; the
list order carries no meaning. -/
structure Store where
  customers : List CustomerRow := []
  fabrics : List FabricRow := []
  garments : List GarmentRow := []
  orders : List OrderRow := []
deriving DecidableEq, Repr

def emptyStore : Store := {}

/-- Does an optional foreign key resolve in the given id list?  A NULL
reference always satisfies the constraint. -/
def refOk (ids : List Nat) (r : Option Nat) : Bool :=
  match r with
  | none => true
  | some x => ids.contains x

/-- Caller supplied columns of an INSERT INTO customers; generated id and
timestamp defaults are filled in by insertCustomer. -/
structure CustomerIns where
  name : String
  phone : String
  email : String
  measurements_json : String := "\x7b\x7d"
deriving DecidableEq, Repr

/-- Caller supplied columns of an INSERT INTO fabrics. -/
structure FabricIns where
  name : String
  material : String
  price_per_meter : Int := 0
  color : String
  stock : Int := 0
  images_json : String := "[]"
  featured : Bool := false
  description : Option String := none
deriving DecidableEq, Repr

/-- Caller supplied columns of an INSERT INTO garments. -/
structure GarmentIns where
  name : String
  category : String
  base_price : Int := 0
  description : Option String := none
  image_url : Option String := none
  customization_options : String := "\x7b\x7d"
deriving DecidableEq, Repr

/-- Caller supplied columns of an INSERT INTO orders.  tracking_id none
models both an omitted column and an explicit NULL (the set_tracking_id
trigger treats them alike); for status the outer Option distinguishes an
omitted column (none, which takes the DEFAULT) from an explicitly
supplied value (some v, where v may itself be NULL). -/
structure OrderIns where
  customer_id : Option Nat := none
  fabric_id : Option Nat := none
  garment_id : Option Nat := none
  tracking_id : Option String := none
  customizations_json : String := "\x7b\x7d"
  measurements_json : String := "\x7b\x7d"
  price : Int := 0
  status : Option (Option String) := none
  urgent : Bool := false
  special_instructions : Option String := none
  estimated_completion : Option Nat := none
deriving DecidableEq, Repr

/-- The status stored by an order insert: the DEFAULT value confirmed when the
column is omitted, the supplied value (possibly NULL) otherwise. -/
def insStatus (ins : OrderIns) : Option String :=
  match ins.status with
  | none => some "confirmed"
  | some v => v

/-- The row an order insert tries to store, after the BEFORE INSERT
trigger set_tracking_id has run and the column defaults are applied. -/
def mkOrderRow (ins : OrderIns) (id now : Nat) : OrderRow :=
  { id := id
    customer_id := ins.customer_id
    fabric_id := ins.fabric_id
    garment_id := ins.garment_id
    tracking_id := set_tracking_id ins.tracking_id now
    customizations_json := ins.customizations_json
    measurements_json := ins.measurements_json
    price := ins.price
    status := insStatus ins
    urgent := ins.urgent
    special_instructions := ins.special_instructions
    estimated_completion := ins.estimated_completion
    created_at := now
    updated_at := now }

/-- INSERT INTO customers: rejected only on a primary key collision. -/
def insertCustomer (s : Store) (ins : CustomerIns) (id now : Nat) : Option Store :=
  if s.customers.any (fun c => c.id == id) then none
  else some { s with customers := s.customers ++
    [{ id := id, name := ins.name, phone := ins.phone, email := ins.email,
       measurements_json := ins.measurements_json,
       created_at := now, updated_at := now }] }

/-- INSERT INTO fabrics: rejected only on a primary key collision. -/
def insertFabric (s : Store) (ins : FabricIns) (id now : Nat) : Option Store :=
  if s.fabrics.any (fun f => f.id == id) then none
  else some { s with fabrics := s.fabrics ++
    [{ id := id, name := ins.name, material := ins.material,
       price_per_meter := ins.price_per_meter, color := ins.color,
       stock := ins.stock, images_json := ins.images_json,
       featured := ins.featured, description := ins.description,
       created_at := now, updated_at := now }] }

/-- INSERT INTO garments: rejected only on a primary key collision. -/
def insertGarment (s : Store) (ins : GarmentIns) (id now : Nat) : Option Store :=
  if s.garments.any (fun g => g.id == id) then none
  else some { s with garments := s.garments ++
    [{ id := id, name := ins.name, category := ins.category,
       base_price := ins.base_price, description := ins.description,
       image_url := ins.image_url,
       customization_options := ins.customization_options,
       created_at := now, updated_at := now }] }

/-- INSERT INTO orders: the BEFORE INSERT trigger runs first (inside
mkOrderRow), then the primary key, the status CHECK, the tracking_id
UNIQUE constraint and the three foreign keys are enforced. -/
def insertOrder (s : Store) (ins : OrderIns) (id now : Nat) : Option Store :=
  if s.orders.any (fun o => o.id == id) then none
  else if !(statusCheck (mkOrderRow ins id now).status) then none
  else if s.orders.any (fun o => o.tracking_id == (mkOrderRow ins id now).tracking_id)
    then none
  else if !(refOk (s.customers.map (fun c => c.id)) (mkOrderRow ins id now).customer_id &&
            refOk (s.fabrics.map (fun f => f.id)) (mkOrderRow ins id now).fabric_id &&
            refOk (s.garments.map (fun g => g.id)) (mkOrderRow ins id now).garment_id)
    then none
  else some { s with orders := s.orders ++ [mkOrderRow ins id now] }

/-- An UPDATE ... SET list for a customers row: none means the column is
absent from the SET list.  The caller may try to supply updated_at; the
BEFORE UPDATE trigger overwrites it. -/
structure CustomerUpd where
  name : Option String := none
  phone : Option String := none
  email : Option String := none
  measurements_json : Option String := none
  updated_at : Option Nat := none
deriving DecidableEq, Repr

/-- An UPDATE ... SET list for a fabrics row. -/
structure FabricUpd where
  name : Option String := none
  material : Option String := none
  price_per_meter : Option Int := none
  color : Option String := none
  stock : Option Int := none
  images_json : Option String := none
  featured : Option Bool := none
  description : Option (Option String) := none
  updated_at : Option Nat := none
deriving DecidableEq, Repr

/-- An UPDATE ... SET list for a garments row. -/
structure GarmentUpd where
  name : Option String := none
  category : Option String := none
  base_price : Option Int := none
  description : Option (Option String) := none
  image_url : Option (Option String) := none
  customization_options : Option String := none
  updated_at : Option Nat := none
deriving DecidableEq, Repr

/-- An UPDATE ... SET list for an orders row.  tracking_id is NOT NULL so
only a non NULL replacement can be supplied; status may be set to NULL
(some none). -/
structure OrderUpd where
  tracking_id : Option String := none
  customizations_json : Option String := none
  measurements_json : Option String := none
  price : Option Int := none
  status : Option (Option String) := none
  urgent : Option Bool := none
  special_instructions : Option (Option String) := none
  estimated_completion : Option (Option Nat) := none
  updated_at : Option Nat := none
deriving DecidableEq, Repr

def applyCustomerUpd (c : CustomerRow) (u : CustomerUpd) : CustomerRow :=
  { c with
    name := u.name.getD c.name
    phone := u.phone.getD c.phone
    email := u.email.getD c.email
    measurements_json := u.measurements_json.getD c.measurements_json
    updated_at := u.updated_at.getD c.updated_at }

def applyFabricUpd (f : FabricRow) (u : FabricUpd) : FabricRow :=
  { f with
    name := u.name.getD f.name
    material := u.material.getD f.material
    price_per_meter := u.price_per_meter.getD f.price_per_meter
    color := u.color.getD f.color
    stock := u.stock.getD f.stock
    images_json := u.images_json.getD f.images_json
    featured := u.featured.getD f.featured
    description := u.description.getD f.description
    updated_at := u.updated_at.getD f.updated_at }

def applyGarmentUpd (g : GarmentRow) (u : GarmentUpd) : GarmentRow :=
  { g with
    name := u.name.getD g.name
    category := u.category.getD g.category
    base_price := u.base_price.getD g.base_price
    description := u.description.getD g.description
    image_url := u.image_url.getD g.image_url
    customization_options := u.customization_options.getD g.customization_options
    updated_at := u.updated_at.getD g.updated_at }

def applyOrderUpd (o : OrderRow) (u : OrderUpd) : OrderRow :=
  { o with
    tracking_id := u.tracking_id.getD o.tracking_id
    customizations_json := u.customizations_json.getD o.customizations_json
    measurements_json := u.measurements_json.getD o.measurements_json
    price := u.price.getD o.price
    status := u.status.getD o.status
    urgent := u.urgent.getD o.urgent
    special_instructions := u.special_instructions.getD o.special_instructions
    estimated_completion := u.estimated_completion.getD o.estimated_completion
    updated_at := u.updated_at.getD o.updated_at }

/-- UPDATE customers ... WHERE id = cid.  Matching no row is a successful
no-op.  The customers_updated_at_trigger stamps updated_at with now()
after the SET list is applied.  (Primary keys are unique in every
reachable state, so replacing the matching row in place is modelled as a
cons onto the other rows; table order carries no meaning.) -/
def updateCustomer (s : Store) (cid : Nat) (u : CustomerUpd) (now : Nat) : Option Store :=
  match s.customers.find? (fun c => c.id == cid) with
  | none => some s
  | some c =>
      some { s with customers :=
        { applyCustomerUpd c u with updated_at := now } ::
          s.customers.filter (fun x => !(x.id == cid)) }

/-- UPDATE fabrics ... WHERE id = fid, with the fabrics_updated_at_trigger. -/
def updateFabric (s : Store) (fid : Nat) (u : FabricUpd) (now : Nat) : Option Store :=
  match s.fabrics.find? (fun f => f.id == fid) with
  | none => some s
  | some f =>
      some { s with fabrics :=
        { applyFabricUpd f u with updated_at := now } ::
          s.fabrics.filter (fun x => !(x.id == fid)) }

/-- UPDATE garments ... WHERE id = gid, with the garments_updated_at_trigger. -/
def updateGarment (s : Store) (gid : Nat) (u : GarmentUpd) (now : Nat) : Option Store :=
  match s.garments.find? (fun g => g.id == gid) with
  | none => some s
  | some g =>
      some { s with garments :=
        { applyGarmentUpd g u with updated_at := now } ::
          s.garments.filter (fun x => !(x.id == gid)) }

/-- UPDATE orders ... WHERE id = oid, with the orders_updated_at_trigger.
The status CHECK and the tracking_id UNIQUE constraint are re-checked on
the new row; set_tracking_id does not run (it is a BEFORE INSERT trigger
only). -/
def updateOrder (s : Store) (oid : Nat) (u : OrderUpd) (now : Nat) : Option Store :=
  match s.orders.find? (fun o => o.id == oid) with
  | none => some s
  | some o =>
      if !(statusCheck (applyOrderUpd o u).status) then none
      else if s.orders.any (fun x =>
          !(x.id == oid) && x.tracking_id == (applyOrderUpd o u).tracking_id)
        then none
      else some { s with orders :=
        { applyOrderUpd o u with updated_at := now } ::
          s.orders.filter (fun x => !(x.id == oid)) }

/-- DELETE FROM customers WHERE id = cid: the ON DELETE CASCADE clause of
orders.customer_id also removes every order referencing the customer. -/
def deleteCustomer (s : Store) (cid : Nat) : Option Store :=
  some { s with
    customers := s.customers.filter (fun c => !(c.id == cid))
    orders := s.orders.filter (fun o => !(o.customer_id == some cid)) }

/-- DELETE FROM fabrics WHERE id = fid: orders.fabric_id carries no ON
DELETE action, so the default NO ACTION applies and the delete is
rejected when it would leave a dangling reference. -/
def deleteFabric (s : Store) (fid : Nat) : Option Store :=
  if s.orders.all (fun o =>
      refOk ((s.fabrics.filter (fun f => !(f.id == fid))).map (fun f => f.id)) o.fabric_id)
  then some { s with fabrics := s.fabrics.filter (fun f => !(f.id == fid)) }
  else none

/-- DELETE FROM garments WHERE id = gid, NO ACTION as for fabrics. -/
def deleteGarment (s : Store) (gid : Nat) : Option Store :=
  if s.orders.all (fun o =>
      refOk ((s.garments.filter (fun g => !(g.id == gid))).map (fun g => g.id)) o.garment_id)
  then some { s with garments := s.garments.filter (fun g => !(g.id == gid)) }
  else none

/-- One client issued statement against the store, together with the
generated identifier (for inserts) and the transaction time now. -/
inductive Op where
  | insCustomer (ins : CustomerIns) (id now : Nat)
  | insFabric (ins : FabricIns) (id now : Nat)
  | insGarment (ins : GarmentIns) (id now : Nat)
  | insOrder (ins : OrderIns) (id now : Nat)
  | updCustomer (cid : Nat) (u : CustomerUpd) (now : Nat)
  | updFabric (fid : Nat) (u : FabricUpd) (now : Nat)
  | updGarment (gid : Nat) (u : GarmentUpd) (now : Nat)
  | updOrder (oid : Nat) (u : OrderUpd) (now : Nat)
  | delCustomer (cid : Nat)
  | delFabric (fid : Nat)
  | delGarment (gid : Nat)
deriving Repr

/-- Dispatch a statement to its table operation. -/
def applyOp (s : Store) : Op → Option Store
  | .insCustomer ins id now => insertCustomer s ins id now
  | .insFabric ins id now => insertFabric s ins id now
  | .insGarment ins id now => insertGarment s ins id now
  | .insOrder ins id now => insertOrder s ins id now
  | .updCustomer cid u now => updateCustomer s cid u now
  | .updFabric fid u now => updateFabric s fid u now
  | .updGarment gid u now => updateGarment s gid u now
  | .updOrder oid u now => updateOrder s oid u now
  | .delCustomer cid => deleteCustomer s cid
  | .delFabric fid => deleteFabric s fid
  | .delGarment gid => deleteGarment s gid

/-- A rejected statement leaves the store unchanged. -/
def step (s : Store) (op : Op) : Store :=
  (applyOp s op).getD s

/-- The store reached by running a list of statements from the empty
store: every reachable state has this form. -/
def reach (ops : List Op) : Store :=
  ops.foldl step emptyStore

/-- Primary key uniqueness for the orders table. -/
def IdsNodup (l : List OrderRow) : Prop :=
  (l.map (fun o => o.id)).Nodup

/-- The UNIQUE constraint on orders.tracking_id: rows at distinct
positions carry distinct tracking codes. -/
def TrackUnique (l : List OrderRow) : Prop :=
  l.Pairwise (fun a b => a.tracking_id ≠ b.tracking_id)

/-- The CHECK constraint on orders.status holds on every stored row. -/
def StatusOk (l : List OrderRow) : Prop :=
  ∀ o ∈ l, statusCheck o.status = true

/-- The constraint driven invariant of the orders table. -/
def OrdersInv (l : List OrderRow) : Prop :=
  IdsNodup l ∧ TrackUnique l ∧ StatusOk l

theorem ordersInv_sublist {l l' : List OrderRow} (hs : l'.Sublist l)
    (h : OrdersInv l) : OrdersInv l' := by
  obtain ⟨h1, h2, h3⟩ := h
  refine ⟨h1.sublist (hs.map _), h2.sublist hs, fun o ho => h3 o (hs.mem ho)⟩

/-- Success characterization of insertOrder: the guards that held and the
resulting store. -/
theorem insertOrder_eq_some {s : Store} {ins : OrderIns} {id now : Nat} {s' : Store}
    (h : insertOrder s ins id now = some s') :
    (∀ o ∈ s.orders, o.id ≠ id) ∧
    statusCheck (insStatus ins) = true ∧
    (∀ o ∈ s.orders, o.tracking_id ≠ set_tracking_id ins.tracking_id now) ∧
    s' = { s with orders := s.orders ++ [mkOrderRow ins id now] } := by
  unfold insertOrder at h
  split at h
  · exact absurd h (by simp)
  · split at h
    · exact absurd h (by simp)
    · split at h
      · exact absurd h (by simp)
      · split at h
        · exact absurd h (by simp)
        · rename_i h1 h2 h3 h4
          simp only [List.any_eq_true, beq_iff_eq, not_exists, not_and] at h1 h3
          simp only [Bool.not_eq_true, Bool.not_eq_false'] at h2
          refine ⟨fun o ho => h1 o ho, h2, fun o ho => h3 o ho, ?_⟩
          exact (Option.some.inj h).symm

/-- Success characterization of updateOrder on a matched row. -/
theorem updateOrder_eq_some {s : Store} {oid : Nat} {u : OrderUpd} {now : Nat}
    {s' : Store} {o : OrderRow}
    (hf : s.orders.find? (fun x => x.id == oid) = some o)
    (h : updateOrder s oid u now = some s') :
    statusCheck (applyOrderUpd o u).status = true ∧
    (∀ x ∈ s.orders, x.id ≠ oid → x.tracking_id ≠ (applyOrderUpd o u).tracking_id) ∧
    s' = { s with orders := { applyOrderUpd o u with updated_at := now } ::
            s.orders.filter (fun x => !(x.id == oid)) } := by
  unfold updateOrder at h
  split at h
  · rename_i heq
    rw [hf] at heq
    exact absurd heq (by simp)
  · rename_i o' heq
    rw [hf] at heq
    obtain rfl : o' = o := (Option.some.inj heq).symm
    split at h
    · exact absurd h (by simp)
    · split at h
      · exact absurd h (by simp)
      · rename_i h1 h2
        simp only [Bool.not_eq_true, Bool.not_eq_false'] at h1
        simp only [List.any_eq_true, Bool.and_eq_true, Bool.not_eq_true',
          beq_iff_eq, not_exists, not_and] at h2
        refine ⟨h1, ?_, (Option.some.inj h).symm⟩
        intro x hx hxid htr
        have := h2 x hx
        simp [hxid, htr] at this

theorem insertCustomer_orders {s s' : Store} {ins : CustomerIns} {id now : Nat}
    (h : insertCustomer s ins id now = some s') : s'.orders = s.orders := by
  unfold insertCustomer at h
  split at h
  · exact absurd h (by simp)
  · rw [← Option.some.inj h]

theorem insertFabric_orders {s s' : Store} {ins : FabricIns} {id now : Nat}
    (h : insertFabric s ins id now = some s') : s'.orders = s.orders := by
  unfold insertFabric at h
  split at h
  · exact absurd h (by simp)
  · rw [← Option.some.inj h]

theorem insertGarment_orders {s s' : Store} {ins : GarmentIns} {id now : Nat}
    (h : insertGarment s ins id now = some s') : s'.orders = s.orders := by
  unfold insertGarment at h
  split at h
  · exact absurd h (by simp)
  · rw [← Option.some.inj h]

theorem updateCustomer_orders {s s' : Store} {cid : Nat} {u : CustomerUpd} {now : Nat}
    (h : updateCustomer s cid u now = some s') : s'.orders = s.orders := by
  unfold updateCustomer at h
  split at h <;> rw [← Option.some.inj h]

theorem updateFabric_orders {s s' : Store} {fid : Nat} {u : FabricUpd} {now : Nat}
    (h : updateFabric s fid u now = some s') : s'.orders = s.orders := by
  unfold updateFabric at h
  split at h <;> rw [← Option.some.inj h]

theorem updateGarment_orders {s s' : Store} {gid : Nat} {u : GarmentUpd} {now : Nat}
    (h : updateGarment s gid u now = some s') : s'.orders = s.orders := by
  unfold updateGarment at h
  split at h <;> rw [← Option.some.inj h]

theorem deleteFabric_orders {s s' : Store} {fid : Nat}
    (h : deleteFabric s fid = some s') : s'.orders = s.orders := by
  unfold deleteFabric at h
  split at h
  · rw [← Option.some.inj h]
  · exact absurd h (by simp)

theorem deleteGarment_orders {s s' : Store} {gid : Nat}
    (h : deleteGarment s gid = some s') : s'.orders = s.orders := by
  unfold deleteGarment at h
  split at h
  · rw [← Option.some.inj h]
  · exact absurd h (by simp)

theorem ordersInv_insertOrder {s s' : Store} {ins : OrderIns} {id now : Nat}
    (hinv : OrdersInv s.orders) (h : insertOrder s ins id now = some s') :
    OrdersInv s'.orders := by
  obtain ⟨h1, h2, h3, h4⟩ := insertOrder_eq_some h
  obtain ⟨hn, ht, hs⟩ := hinv
  subst h4
  refine ⟨?_, ?_, ?_⟩
  · simp only [IdsNodup, List.map_append, List.map_cons, List.map_nil]
    rw [List.nodup_append]
    refine ⟨hn, List.nodup_singleton _, ?_⟩
    intro x hx hx2
    simp only [List.mem_map] at hx
    obtain ⟨o, ho, rfl⟩ := hx
    simp only [List.mem_singleton] at hx2
    exact h1 o ho (by simpa [mkOrderRow] using hx2)
  · rw [TrackUnique, List.pairwise_append]
    refine ⟨ht, List.pairwise_singleton _ _, ?_⟩
    intro a ha b hb
    simp only [List.mem_singleton] at hb
    subst hb
    exact h3 a ha
  · intro o ho
    rcases List.mem_append.mp ho with hmem | hmem
    · exact hs o hmem
    · simp only [List.mem_singleton] at hmem
      subst hmem
      simpa [mkOrderRow] using h2

theorem ordersInv_updateOrder {s s' : Store} {oid : Nat} {u : OrderUpd} {now : Nat}
    (hinv : OrdersInv s.orders) (h : updateOrder s oid u now = some s') :
    OrdersInv s'.orders := by
  obtain ⟨hn, ht, hs⟩ := hinv
  cases hf : s.orders.find? (fun x => x.id == oid) with
  | none =>
      unfold updateOrder at h
      rw [hf] at h
      exact (Option.some.inj h) ▸ ⟨hn, ht, hs⟩
  | some o =>
      obtain ⟨h1, h2, h3⟩ := updateOrder_eq_some hf h
      subst h3
      have hoid : o.id = oid := by simpa using List.find?_some hf
      have hsub : (s.orders.filter (fun x => !(x.id == oid))).Sublist s.orders :=
        List.filter_sublist s.orders
      have hmemf : ∀ x ∈ s.orders.filter (fun x => !(x.id == oid)),
          x ∈ s.orders ∧ x.id ≠ oid := by
        intro x hx
        have := List.mem_filter.mp hx
        exact ⟨this.1, by simpa using this.2⟩
      refine ⟨?_, ?_, ?_⟩
      · simp only [IdsNodup, List.map_cons]
        rw [List.nodup_cons]
        constructor
        · intro hx
          simp only [List.mem_map] at hx
          obtain ⟨x, hx, hxid⟩ := hx
          have := (hmemf x hx).2
          exact this (by simpa [applyOrderUpd, hoid] using hxid)
        · exact hn.sublist (hsub.map _)
      · rw [TrackUnique, List.pairwise_cons]
        constructor
        · intro x hx
          obtain ⟨hx1, hx2⟩ := hmemf x hx
          have := h2 x hx1 hx2
          simpa using fun he => this he.symm
        · exact ht.sublist hsub
      · intro x hx
        rcases List.mem_cons.mp hx with rfl | hmem
        · simpa using h1
        · exact hs x (hmemf x hmem).1

theorem ordersInv_step (s : Store) (op : Op) (hinv : OrdersInv s.orders) :
    OrdersInv (step s op).orders := by
  unfold step
  cases hap : applyOp s op with
  | none => simpa using hinv
  | some s2 =>
      simp only [Option.getD_some]
      cases op <;> simp only [applyOp] at hap
      case insCustomer ins id now => rw [insertCustomer_orders hap]; exact hinv
      case insFabric ins id now => rw [insertFabric_orders hap]; exact hinv
      case insGarment ins id now => rw [insertGarment_orders hap]; exact hinv
      case insOrder ins id now => exact ordersInv_insertOrder hinv hap
      case updCustomer cid u now => rw [updateCustomer_orders hap]; exact hinv
      case updFabric fid u now => rw [updateFabric_orders hap]; exact hinv
      case updGarment gid u now => rw [updateGarment_orders hap]; exact hinv
      case updOrder oid u now => exact ordersInv_updateOrder hinv hap
      case delCustomer cid =>
        have : s2.orders = s.orders.filter (fun o => !(o.customer_id == some cid)) := by
          unfold deleteCustomer at hap
          rw [← Option.some.inj hap]
        rw [this]
        exact ordersInv_sublist (List.filter_sublist s.orders) hinv
      case delFabric fid => rw [deleteFabric_orders hap]; exact hinv
      case delGarment gid => rw [deleteGarment_orders hap]; exact hinv

/-- Every reachable state of the store satisfies the constraint driven
invariant of the orders table. -/
theorem ordersInv_reach (ops : List Op) : OrdersInv (reach ops).orders := by
  have hgen : ∀ (l : List Op) (s : Store), OrdersInv s.orders →
      OrdersInv (l.foldl step s).orders := by
    intro l
    induction l with
    | nil => intro s hs; exact hs
    | cons op rest ih =>
        intro s hs
        exact ih (step s op) (ordersInv_step s op hs)
  exact hgen ops emptyStore ⟨List.nodup_nil, List.Pairwise.nil, by intro o ho; cases ho⟩

/-- The client side Fabric record used by the React pages (the shape of
the Fabric interface of src/types, as consumed by AdminFabrics: fetched
rows carry these fields decoded from the table). -/
structure Fabric where
  id : Nat
  name : String
  material : String
  color : String
  price_per_meter : Int := 0
  stock : Int := 0
  featured : Bool := false
  description : String := ""
  images_json : List String := []
deriving DecidableEq, Repr

/-- The client side Garment record used by the React pages (the shape of
the Garment interface of src/types, as consumed by the garments pages). -/
structure Garment where
  id : Nat
  name : String
  category : String
  base_price : Int := 0
  description : String := ""
  image_url : String := ""
deriving DecidableEq, Repr

/-- The JavaScript idiom str.toLowerCase().includes(term.toLowerCase()): a case
insensitive substring test. -/
def containsCI (hay needle : String) : Bool :=
  decide ((needle.data.map Char.toLower) <:+: (hay.data.map Char.toLower))

namespace AdminFabrics

/-- filterFabrics of src/src/pages/admin/Fabrics.tsx: when the search term
is non empty (JavaScript truthiness) keep fabrics whose name, material or
color contains it case insensitively; when the material filter is not the
string all, additionally keep only exact material matches. -/
def filterFabrics (fabrics : List Fabric) (searchTerm materialFilter : String) :
    List Fabric :=
  let f1 := if searchTerm ≠ "" then
      fabrics.filter (fun fabric =>
        containsCI fabric.name searchTerm ||
        containsCI fabric.material searchTerm ||
        containsCI fabric.color searchTerm)
    else fabrics
  if materialFilter ≠ "all" then f1.filter (fun fabric => fabric.material == materialFilter)
  else f1

/-- toggleFeatured of src/src/pages/admin/Fabrics.tsx, success path of the
client collection update: if no fabric has the id, return early leaving
the collection unchanged; otherwise flip the featured flag of the
matching entries and keep every other entry as is. -/
def toggleFeatured (fabrics : List Fabric) (fabricId : Nat) : List Fabric :=
  match fabrics.find? (fun f => f.id == fabricId) with
  | none => fabrics
  | some _ => fabrics.map (fun f =>
      if f.id == fabricId then { f with featured := !f.featured } else f)

end AdminFabrics

namespace GarmentsPage

/-- filterGarments of the storefront garments page (src/unnamed/part_001):
the search matches name, category or description case insensitively; the
category filter is an exact match when not the string all. -/
def filterGarments (garments : List Garment) (searchTerm selectedCategory : String) :
    List Garment :=
  let f1 := if searchTerm ≠ "" then
      garments.filter (fun garment =>
        containsCI garment.name searchTerm ||
        containsCI garment.category searchTerm ||
        containsCI garment.description searchTerm)
    else garments
  if selectedCategory ≠ "all" then
    f1.filter (fun garment => garment.category == selectedCategory)
  else f1

end GarmentsPage

namespace AdminProducts

/-- filterGarments of src/src/pages/admin/Products.tsx: the search matches
only name and category (not description); the category filter is an exact
match when not the string all. -/
def filterGarments (garments : List Garment) (searchTerm categoryFilter : String) :
    List Garment :=
  let f1 := if searchTerm ≠ "" then
      garments.filter (fun garment =>
        containsCI garment.name searchTerm ||
        containsCI garment.category searchTerm)
    else garments
  if categoryFilter ≠ "all" then
    f1.filter (fun garment => garment.category == categoryFilter)
  else f1

end AdminProducts

/-- Caller classes of the row level security model: the anon and
authenticated PostgreSQL roles named by the TO clauses of the migration. -/
inductive CallerKind where
  | anon
  | authenticated
deriving DecidableEq, Repr

/-- The request context a policy predicate may consult: the caller class,
auth.uid() (none for anonymous callers) and the role claim of auth.jwt(). -/
structure Caller where
  kind : CallerKind
  uid : Option Nat := none
  jwtRole : Option String := none
deriving DecidableEq, Repr

inductive Tbl where
  | customers
  | fabrics
  | garments
  | orders
deriving DecidableEq, Repr

/-- The four row level SQL commands a policy can cover. -/
inductive SqlCmd where
  | select
  | insert
  | update
  | delete
deriving DecidableEq, Repr

/-- The target row attributes the policy predicates of the migration
consult: the row id (customers) and the customer reference (orders). -/
structure RowCtx where
  id : Nat := 0
  customer_id : Option Nat := none
deriving DecidableEq, Repr

/-- One CREATE POLICY statement: the table, the command it is FOR (none
means FOR ALL), the roles of its TO clause, and its predicate over the
request context (the USING and defaulted WITH CHECK expression). -/
structure Policy where
  table : Tbl
  cmd : Option SqlCmd
  toAnon : Bool
  toAuthenticated : Bool
  pred : Caller → RowCtx → Bool

/-- The role claim of auth.jwt() equals the string admin. -/
def isAdmin (c : Caller) : Bool :=
  c.jwtRole == some "admin"

/-- Does the policy cover the command?  FOR ALL covers every command. -/
def cmdApplies (p : Policy) (cmd : SqlCmd) : Bool :=
  match p.cmd with
  | none => true
  | some c0 => c0 == cmd

/-- Does the TO clause of the policy include the role of the caller? -/
def roleApplies (p : Policy) (k : CallerKind) : Bool :=
  match k with
  | .anon => p.toAnon
  | .authenticated => p.toAuthenticated

/-- The ten CREATE POLICY statements of the migration as written, reading
the boolean expression of each policy (USING or WITH CHECK) as its predicate. -/
def policiesIntended : List Policy :=
  [ -- "Anyone can insert customer data" ON customers FOR INSERT TO anon, authenticated
    { table := .customers, cmd := some .insert, toAnon := true, toAuthenticated := true,
      pred := fun _ _ => true },
    -- "Customers can view their own data" ON customers FOR SELECT TO authenticated
    { table := .customers, cmd := some .select, toAnon := false, toAuthenticated := true,
      pred := fun c r => c.uid == some r.id },
    -- "Admins can view all customers" ON customers FOR ALL TO authenticated
    { table := .customers, cmd := none, toAnon := false, toAuthenticated := true,
      pred := fun c _ => isAdmin c },
    -- "Anyone can view fabrics" ON fabrics FOR SELECT TO anon, authenticated
    { table := .fabrics, cmd := some .select, toAnon := true, toAuthenticated := true,
      pred := fun _ _ => true },
    -- "Admins can manage fabrics" ON fabrics FOR ALL TO authenticated
    { table := .fabrics, cmd := none, toAnon := false, toAuthenticated := true,
      pred := fun c _ => isAdmin c },
    -- "Anyone can view garments" ON garments FOR SELECT TO anon, authenticated
    { table := .garments, cmd := some .select, toAnon := true, toAuthenticated := true,
      pred := fun _ _ => true },
    -- "Admins can manage garments" ON garments FOR ALL TO authenticated
    { table := .garments, cmd := none, toAnon := false, toAuthenticated := true,
      pred := fun c _ => isAdmin c },
    -- "Anyone can track orders by tracking_id" ON orders FOR SELECT TO anon, authenticated
    { table := .orders, cmd := some .select, toAnon := true, toAuthenticated := true,
      pred := fun _ _ => true },
    -- "Customers can create orders" ON orders FOR INSERT TO anon, authenticated
    { table := .orders, cmd := some .insert, toAnon := true, toAuthenticated := true,
      pred := fun _ _ => true },
    -- "Customers can view their own orders" ON orders FOR SELECT TO authenticated
    { table := .orders, cmd := some .select, toAnon := false, toAuthenticated := true,
      pred := fun c r => r.customer_id == c.uid },
    -- "Admins can manage all orders" ON orders FOR ALL TO authenticated
    { table := .orders, cmd := none, toAnon := false, toAuthenticated := true,
      pred := fun c _ => isAdmin c } ]

/-- The policies PostgreSQL actually creates when the migration statements
are executed one by one: the three public read policies are written as
FOR SELECT ... WITH CHECK (true), which PostgreSQL rejects with the error
WITH CHECK cannot be applied to SELECT or DELETE, so they never exist
(and under a single transaction the whole migration would abort). -/
def policiesExecuted : List Policy :=
  policiesIntended.filter (fun p =>
    !(p.cmd == some SqlCmd.select && p.toAnon))

/-- Permissive row level security: the request is authorized iff at least
the predicate of at least one applicable policy is true (with RLS enabled and no policy
applying, the default is deny). -/
def allows (ps : List Policy) (c : Caller) (t : Tbl) (cmd : SqlCmd) (r : RowCtx) : Bool :=
  ps.any (fun p => p.table == t && cmdApplies p cmd && roleApplies p c.kind && p.pred c r)

/-- The access rule table of the specification (section 4.4), transcribed
row by row from its words. -/
def specAllows (c : Caller) (t : Tbl) (cmd : SqlCmd) (r : RowCtx) : Bool :=
  (t == .customers && cmd == .insert) ||
  (t == .customers && cmd == .select && c.kind == .authenticated && c.uid == some r.id) ||
  (t == .customers && c.kind == .authenticated && isAdmin c) ||
  (t == .fabrics && cmd == .select) ||
  (t == .fabrics && c.kind == .authenticated && isAdmin c) ||
  (t == .garments && cmd == .select) ||
  (t == .garments && c.kind == .authenticated && isAdmin c) ||
  (t == .orders && cmd == .select) ||
  (t == .orders && cmd == .insert) ||
  (t == .orders && cmd == .select && c.kind == .authenticated && r.customer_id == c.uid) ||
  (t == .orders && c.kind == .authenticated && isAdmin c)

theorem trackingFor_eq_spec {t : Nat} (h : (Nat.repr t).length ≤ 10) :
    trackingFor t = specTrackingCode t := by
  unfold trackingFor specTrackingCode lpad
  split
  · rename_i hle
    have hlen : (Nat.repr t).length = 10 := le_antisymm h hle
    have hd : (Nat.repr t).data.length = 10 := hlen
    congr 1
    rw [hlen]
    simp only [Nat.sub_self, List.replicate, List.nil_append]
    congr 1
    exact List.take_of_length_le (le_of_eq hd)
  · rfl

/-- Claim C1: on an order insert with no caller supplied tracking code (or
an empty one), the stored code is the literal RT followed by the epoch
time in whole seconds zero padded to 10 digits (RT1700000000 at epoch
1700000000); a non empty caller supplied code is stored unchanged.  The
digit count hypothesis reflects that LPAD truncates an epoch of more than
10 digits; every epoch between 2001 and 2286 has exactly 10. -/
theorem tracking_id_insert_spec :
    (∀ (s : Store) (ins : OrderIns) (id t : Nat) (s' : Store),
        (ins.tracking_id = none ∨ ins.tracking_id = some "") →
        (Nat.repr t).length ≤ 10 →
        insertOrder s ins id t = some s' →
        ∃ o ∈ s'.orders, o.id = id ∧ o.tracking_id = specTrackingCode t) ∧
    (∀ (s : Store) (ins : OrderIns) (id t : Nat) (s' : Store) (c : String),
        ins.tracking_id = some c → c ≠ "" →
        insertOrder s ins id t = some s' →
        ∃ o ∈ s'.orders, o.id = id ∧ o.tracking_id = c) ∧
    specTrackingCode 1700000000 = "RT1700000000" := by
  refine ⟨?_, ?_, by decide⟩
  · intro s ins id t s' hemp hlen h
    obtain ⟨-, -, -, h4⟩ := insertOrder_eq_some h
    subst h4
    refine ⟨mkOrderRow ins id t, by simp, rfl, ?_⟩
    show set_tracking_id ins.tracking_id t = specTrackingCode t
    rcases hemp with he | he <;> rw [he] <;>
      simp [set_tracking_id, trackingFor_eq_spec hlen]
  · intro s ins id t s' c hc hne h
    obtain ⟨-, -, -, h4⟩ := insertOrder_eq_some h
    subst h4
    refine ⟨mkOrderRow ins id t, by simp, rfl, ?_⟩
    show set_tracking_id ins.tracking_id t = c
    rw [hc]
    simp [set_tracking_id, hne]

/-- The store obtained by a single order insert into the empty store at
epoch 1700000000 with every column defaulted. -/
def demoStore1700 : Store :=
  { emptyStore with orders := [mkOrderRow {} 1 1700000000] }

/-- Witness for C1 at a concrete insert: an order inserted into the empty
store at epoch 1700000000 with no tracking code stores RT1700000000. -/
theorem tracking_id_insert_spec_witness :
    ∃ o ∈ demoStore1700.orders,
      o.id = 1 ∧ o.tracking_id = specTrackingCode 1700000000 :=
  tracking_id_insert_spec.1 emptyStore {} 1 1700000000 demoStore1700
    (Or.inl rfl) (by decide) (by decide)

/-- Claim C7: two order inserts in the same whole clock second, neither
supplying a tracking code, derive the same tracking code, so the second
insert trips the tracking_id uniqueness constraint, fails, and leaves the
store unchanged. -/
theorem same_second_insert_collision :
    ∀ (s : Store) (ins1 ins2 : OrderIns) (id1 id2 t : Nat) (s' : Store),
      (ins1.tracking_id = none ∨ ins1.tracking_id = some "") →
      (ins2.tracking_id = none ∨ ins2.tracking_id = some "") →
      insertOrder s ins1 id1 t = some s' →
      insertOrder s' ins2 id2 t = none ∧
      step s' (Op.insOrder ins2 id2 t) = s' ∧
      ∃ o ∈ s'.orders, o.tracking_id = set_tracking_id ins2.tracking_id t := by
  intro s ins1 ins2 id1 id2 t s' he1 he2 h1
  obtain ⟨-, -, -, h4⟩ := insertOrder_eq_some h1
  have htr1 : (mkOrderRow ins1 id1 t).tracking_id = trackingFor t := by
    rcases he1 with he | he <;> simp [mkOrderRow, set_tracking_id, he]
  have htr2 : (mkOrderRow ins2 id2 t).tracking_id = trackingFor t := by
    rcases he2 with he | he <;> simp [mkOrderRow, set_tracking_id, he]
  have hmem : mkOrderRow ins1 id1 t ∈ s'.orders := by
    subst h4; simp
  have hany : (s'.orders.any
      (fun o => o.tracking_id == (mkOrderRow ins2 id2 t).tracking_id)) = true := by
    rw [List.any_eq_true]
    exact ⟨mkOrderRow ins1 id1 t, hmem, by simp [htr1, htr2]⟩
  have hnone : insertOrder s' ins2 id2 t = none := by
    simp [insertOrder, hany]
  refine ⟨hnone, by simp [step, applyOp, hnone], ?_⟩
  exact ⟨mkOrderRow ins1 id1 t, hmem, by
    show _ = set_tracking_id ins2.tracking_id t
    rcases he2 with he | he <;> rw [he] at * <;> simpa [set_tracking_id] using htr1⟩

/-- The store obtained by a single fully defaulted order insert into the
empty store at epoch 42. -/
def demoStore42 : Store :=
  { emptyStore with orders := [mkOrderRow {} 1 42] }

/-- Witness for C7: a second codeless order insert at the same epoch 42 is
rejected and the store is unchanged. -/
theorem same_second_insert_collision_witness :
    insertOrder demoStore42 { price := 5 } 2 42 = none ∧
    step demoStore42 (Op.insOrder { price := 5 } 2 42) = demoStore42 ∧
    ∃ o ∈ demoStore42.orders,
      o.tracking_id = set_tracking_id ({ price := 5 } : OrderIns).tracking_id 42 :=
  same_second_insert_collision emptyStore {} { price := 5 } 1 2 42 demoStore42
    (Or.inl rfl) (Or.inl rfl) (by decide)

/-- Claim C9: an order insert that omits the status column stores the
DEFAULT status confirmed. -/
theorem default_status_confirmed :
    ∀ (s : Store) (ins : OrderIns) (id now : Nat) (s' : Store),
      ins.status = none →
      insertOrder s ins id now = some s' →
      ∃ o ∈ s'.orders, o.id = id ∧ o.status = some "confirmed" := by
  intro s ins id now s' hst h
  obtain ⟨-, -, -, h4⟩ := insertOrder_eq_some h
  subst h4
  exact ⟨mkOrderRow ins id now, by simp, rfl, by simp [mkOrderRow, insStatus, hst]⟩

/-- Witness for C9 at the concrete insert behind demoStore1700. -/
theorem default_status_confirmed_witness :
    ∃ o ∈ demoStore1700.orders, o.id = 1 ∧ o.status = some "confirmed" :=
  default_status_confirmed emptyStore {} 1 1700000000 demoStore1700 rfl (by decide)

/-- The reachable store with one fully defaulted order inserted at epoch 5. -/
def demoStoreC2 : Store := reach [Op.insOrder {} 1 5]

/-- Claim C2 counterexample: writing SQL NULL into the status of a stored
order succeeds, because the column is nullable and the CHECK constraint
passes on NULL; NULL is not one of the eight enumerated strings, so a
status write is not rejected exactly when the value is outside the set,
and a stored row can carry a status outside it. -/
theorem status_null_write_accepted :
    (updateOrder demoStoreC2 1 { status := some none } 6).isSome = true ∧
    ((updateOrder demoStoreC2 1 { status := some none } 6).getD emptyStore).orders.any
      (fun o => o.status == (none : Option String)) = true ∧
    (none : Option String) ∉ validStatuses.map some := by decide

/-- The reachable store of the C5 counterexample: an order is inserted at
epoch 2 (receiving the generated code RT0000000002) and its tracking_id
is then overwritten with the empty string by an admin update at epoch 3;
no trigger or constraint prevents this. -/
def demoOpsC5 : List Op :=
  [Op.insOrder {} 1 2, Op.updOrder 1 { tracking_id := some "" } 3]

/-- Claim C5 counterexample: a reachable store holds an order whose
tracking code was changed after assignment, to the empty string. -/
theorem tracking_id_mutable_counterexample :
    (reach [Op.insOrder {} 1 2]).orders.any
      (fun o => o.tracking_id == "RT0000000002") = true ∧
    (reach demoOpsC5).orders.any (fun o => o.tracking_id == "") = true := by decide

/-- The reachable store with one fabric inserted at epoch 5. -/
def demoStoreC4 : Store :=
  reach [Op.insFabric { name := "Premium Silk", material := "Silk", color := "Golden" } 1 5]

/-- Claim C4 counterexample: a successful fabric update issued at the same
clock second as the previous write of the row stamps updated_at with the same
value, so the new updated_at is not strictly greater than the prior one. -/
theorem updated_at_not_strictly_increasing :
    (demoStoreC4.fabrics.find? (fun f => f.id == 1)).map (fun f => f.updated_at)
      = some 5 ∧
    (updateFabric demoStoreC4 1 { stock := some 49 } 5).isSome = true ∧
    (((updateFabric demoStoreC4 1 { stock := some 49 } 5).getD emptyStore).fabrics.find?
      (fun f => f.id == 1)).map (fun f => f.updated_at) = some 5 := by decide

/-- The reachable store of the C6 counterexample: a fabric and an order
referencing it. -/
def demoStoreC6 : Store :=
  reach [Op.insFabric { name := "Premium Silk", material := "Silk", color := "Golden" } 1 1,
    Op.insOrder { fabric_id := some 1 } 1 2]

/-- Claim C6 counterexample: deleting a fabric that an existing order
references is rejected by the foreign key (default NO ACTION), not
accepted. -/
theorem delete_referenced_fabric_rejected :
    demoStoreC6.fabrics.any (fun f => f.id == 1) = true ∧
    demoStoreC6.orders.any (fun o => o.fabric_id == some 1) = true ∧
    deleteFabric demoStoreC6 1 = none := by decide

/-- A fabric whose description contains a search term that none of its
name, material or color contain (the Egyptian Cotton sample row). -/
def cottonFabric : Fabric :=
  { id := 3, name := "Egyptian Cotton", material := "Cotton", color := "White",
    description := "Finest Egyptian cotton for comfortable everyday wear" }

/-- Claim C8 counterexample: the admin fabrics filter drops a fabric whose
description contains the search term, because it only searches name,
material and color. -/
theorem filter_description_not_searched :
    containsCI cottonFabric.description "everyday" = true ∧
    AdminFabrics.filterFabrics [cottonFabric] "everyday" "all" = [] := by decide

/-- Evaluation of updateOrder once the WHERE clause has matched a row. -/
theorem updateOrder_find (s : Store) (oid : Nat) (u : OrderUpd) (now : Nat) (o : OrderRow)
    (hf : s.orders.find? (fun x => x.id == oid) = some o) :
    updateOrder s oid u now =
      if !(statusCheck (applyOrderUpd o u).status) then none
      else if s.orders.any (fun x =>
          !(x.id == oid) && x.tracking_id == (applyOrderUpd o u).tracking_id) then none
      else some { s with orders :=
        { applyOrderUpd o u with updated_at := now } ::
          s.orders.filter (fun x => !(x.id == oid)) } := by
  unfold updateOrder
  rw [hf]

/-- Claim C2 (amended): a status write supplying a non NULL value succeeds
iff the value is one of the eight enumerated strings, and no reachable
row ever stores a non NULL status outside the set; NULL however is
accepted (nullable column, CHECK passes on NULL), which is the single
deviation from the claim. -/
theorem status_write_check_spec :
    (∀ (ops : List Op) (oid : Nat) (v : String) (now : Nat),
        ((reach ops).orders.any (fun o => o.id == oid)) = true →
        ((updateOrder (reach ops) oid { status := some (some v) } now).isSome
          ↔ v ∈ validStatuses)) ∧
    (∀ (s : Store) (ins : OrderIns) (id now : Nat) (v : String),
        ins.status = some (some v) →
        (insertOrder s ins id now).isSome = true →
        v ∈ validStatuses) ∧
    (∀ (ops : List Op), ∀ o ∈ (reach ops).orders, ∀ v, o.status = some v →
        v ∈ validStatuses) := by
  refine ⟨?_, ?_, ?_⟩
  · intro ops oid v now hany
    set s := reach ops with hs
    obtain ⟨-, htu, -⟩ := ordersInv_reach ops
    rw [List.any_eq_true] at hany
    obtain ⟨o0, ho0, ho0id⟩ := hany
    have hfs : (s.orders.find? (fun o => o.id == oid)).isSome := by
      rw [List.find?_isSome]
      exact ⟨o0, ho0, ho0id⟩
    obtain ⟨o, hf⟩ := Option.isSome_iff_exists.mp hfs
    have hoid : o.id = oid := by simpa using List.find?_some hf
    have hom : o ∈ s.orders := List.mem_of_find?_eq_some hf
    have hguard : (s.orders.any (fun x => !(x.id == oid) &&
        x.tracking_id == (applyOrderUpd o { status := some (some v) }).tracking_id))
        = false := by
      rw [← Bool.not_eq_true, List.any_eq_true]
      rintro ⟨x, hx, hxx⟩
      simp only [Bool.and_eq_true, Bool.not_eq_true', beq_iff_eq, beq_eq_false_iff_ne] at hxx
      obtain ⟨hxid, hxtr⟩ := hxx
      have hne : x ≠ o := fun he => hxid (he ▸ hoid)
      have hnetr : x.tracking_id ≠ o.tracking_id := by
        refine List.Pairwise.forall ?_ htu hx hom hne
        intro a b hab
        exact hab.symm
      exact hnetr (by simpa [applyOrderUpd] using hxtr)
    have happ2 : statusCheck (applyOrderUpd o { status := some (some v) }).status
        = validStatuses.contains v := by
      simp [applyOrderUpd, statusCheck]
    rw [updateOrder_find s oid { status := some (some v) } now o hf]
    rw [happ2, hguard]
    cases hc : validStatuses.contains v <;> simp [hc] <;> simp [List.elem_iff] at hc <;>
      simpa using hc
  · intro s ins id now v hst h
    obtain ⟨s', hs'⟩ := Option.isSome_iff_exists.mp h
    obtain ⟨-, h2, -, -⟩ := insertOrder_eq_some hs'
    rw [insStatus, hst] at h2
    simpa [statusCheck, List.elem_iff] using h2
  · intro ops o ho v hv
    obtain ⟨-, -, hso⟩ := ordersInv_reach ops
    have := hso o ho
    rw [hv] at this
    simpa [statusCheck, List.elem_iff] using this

/-- Witness for C2: a valid status write against a concrete reachable
store succeeds. -/
theorem status_write_check_spec_witness :
    (updateOrder (reach [Op.insOrder {} 1 5]) 1
      { status := some (some "cutting") } 6).isSome = true :=
  (status_write_check_spec.1 [Op.insOrder {} 1 5] 1 "cutting" 6 (by decide)).mpr
    (by decide)

/-- Evaluation of updateCustomer once the WHERE clause has matched. -/
theorem updateCustomer_find (s : Store) (cid : Nat) (u : CustomerUpd) (now : Nat)
    (c : CustomerRow) (hf : s.customers.find? (fun x => x.id == cid) = some c) :
    updateCustomer s cid u now = some { s with customers :=
      ({ applyCustomerUpd c u with updated_at := now } ::
        s.customers.filter (fun x => !(x.id == cid))) } := by
  unfold updateCustomer
  rw [hf]

/-- Evaluation of updateFabric once the WHERE clause has matched. -/
theorem updateFabric_find (s : Store) (fid : Nat) (u : FabricUpd) (now : Nat)
    (f : FabricRow) (hf : s.fabrics.find? (fun x => x.id == fid) = some f) :
    updateFabric s fid u now = some { s with fabrics :=
      ({ applyFabricUpd f u with updated_at := now } ::
        s.fabrics.filter (fun x => !(x.id == fid))) } := by
  unfold updateFabric
  rw [hf]

/-- Evaluation of updateGarment once the WHERE clause has matched. -/
theorem updateGarment_find (s : Store) (gid : Nat) (u : GarmentUpd) (now : Nat)
    (g : GarmentRow) (hf : s.garments.find? (fun x => x.id == gid) = some g) :
    updateGarment s gid u now = some { s with garments :=
      ({ applyGarmentUpd g u with updated_at := now } ::
        s.garments.filter (fun x => !(x.id == gid))) } := by
  unfold updateGarment
  rw [hf]

/-- Claim C4 (amended): every successful update to any of the four
entities overwrites updated_at with the transaction time now, regardless
of any caller supplied value for it; the new value is therefore strictly
greater than the prior one exactly when the update runs at a strictly
later clock time, and equal when the clock has not advanced (the single
deviation from the claim, which asserts strict growth unconditionally). -/
theorem updated_at_stamped_on_update :
    (∀ (s : Store) (cid : Nat) (u : CustomerUpd) (now : Nat) (c : CustomerRow),
        s.customers.find? (fun x => x.id == cid) = some c →
        ∃ s', updateCustomer s cid u now = some s' ∧
          ∃ c' ∈ s'.customers, c'.id = c.id ∧ c'.updated_at = now ∧
            (c.updated_at < now → c.updated_at < c'.updated_at)) ∧
    (∀ (s : Store) (fid : Nat) (u : FabricUpd) (now : Nat) (f : FabricRow),
        s.fabrics.find? (fun x => x.id == fid) = some f →
        ∃ s', updateFabric s fid u now = some s' ∧
          ∃ f' ∈ s'.fabrics, f'.id = f.id ∧ f'.updated_at = now ∧
            (f.updated_at < now → f.updated_at < f'.updated_at)) ∧
    (∀ (s : Store) (gid : Nat) (u : GarmentUpd) (now : Nat) (g : GarmentRow),
        s.garments.find? (fun x => x.id == gid) = some g →
        ∃ s', updateGarment s gid u now = some s' ∧
          ∃ g' ∈ s'.garments, g'.id = g.id ∧ g'.updated_at = now ∧
            (g.updated_at < now → g.updated_at < g'.updated_at)) ∧
    (∀ (s : Store) (oid : Nat) (u : OrderUpd) (now : Nat) (o : OrderRow) (s' : Store),
        s.orders.find? (fun x => x.id == oid) = some o →
        updateOrder s oid u now = some s' →
        ∃ o' ∈ s'.orders, o'.id = o.id ∧ o'.updated_at = now ∧
          (o.updated_at < now → o.updated_at < o'.updated_at)) := by
  refine ⟨?_, ?_, ?_, ?_⟩
  · intro s cid u now c hf
    refine ⟨_, updateCustomer_find s cid u now c hf, ?_⟩
    exact ⟨{ applyCustomerUpd c u with updated_at := now }, by simp,
      by simp [applyCustomerUpd], rfl, fun h => h⟩
  · intro s fid u now f hf
    refine ⟨_, updateFabric_find s fid u now f hf, ?_⟩
    exact ⟨{ applyFabricUpd f u with updated_at := now }, by simp,
      by simp [applyFabricUpd], rfl, fun h => h⟩
  · intro s gid u now g hf
    refine ⟨_, updateGarment_find s gid u now g hf, ?_⟩
    exact ⟨{ applyGarmentUpd g u with updated_at := now }, by simp,
      by simp [applyGarmentUpd], rfl, fun h => h⟩
  · intro s oid u now o s' hf h
    obtain ⟨-, -, h3⟩ := updateOrder_eq_some hf h
    subst h3
    exact ⟨{ applyOrderUpd o u with updated_at := now }, by simp,
      by simp [applyOrderUpd], rfl, fun h => h⟩

/-- Witness for C4: the fabric of demoStoreC4, updated at the later epoch
9 by a caller that even tries to force updated_at to 1, is stamped 9. -/
theorem updated_at_stamped_on_update_witness :
    ∃ s', updateFabric demoStoreC4 1 { updated_at := some 1 } 9 = some s' ∧
      ∃ f' ∈ s'.fabrics, f'.id = 1 ∧ f'.updated_at = 9 ∧
        (5 < 9 → (5 : Nat) < f'.updated_at) := by
  have h := updated_at_stamped_on_update.2.1 demoStoreC4 1 { updated_at := some 1 } 9
    { id := 1, name := "Premium Silk", material := "Silk", color := "Golden",
      created_at := 5, updated_at := 5 } (by decide)
  simpa using h

/-- The generated tracking code is never the empty string (it starts with
the literal RT). -/
theorem trackingFor_ne_empty (t : Nat) : trackingFor t ≠ "" := by
  intro h
  have hd : (trackingFor t).data = [] := by rw [h]
  rw [trackingFor, String.data_append] at hd
  simp at hd

/-- Claim C5 (amended): in every reachable state tracking codes are
pairwise distinct (the UNIQUE constraint holds); an order insert stores a
non empty code for the new row and touches no existing row; and any
update whose SET list does not name tracking_id preserves the id and the
tracking code of every surviving row, so the system itself never
regenerates a code.  The schema however does not make the code immutable:
an update naming tracking_id can change it, even to the empty string
(see the counterexample), which is the deviation from the claim. -/
theorem tracking_id_unique_invariant :
    (∀ ops : List Op, TrackUnique (reach ops).orders) ∧
    (∀ (s : Store) (ins : OrderIns) (id now : Nat) (s' : Store),
        insertOrder s ins id now = some s' →
        (∀ o ∈ s'.orders, o.id = id → o.tracking_id ≠ "") ∧
        (∀ o ∈ s.orders, o ∈ s'.orders)) ∧
    (∀ (s : Store) (oid : Nat) (u : OrderUpd) (now : Nat) (s' : Store),
        u.tracking_id = none →
        updateOrder s oid u now = some s' →
        ∀ o' ∈ s'.orders, ∃ o ∈ s.orders, o'.id = o.id ∧ o'.tracking_id = o.tracking_id)
    := by
  refine ⟨fun ops => (ordersInv_reach ops).2.1, ?_, ?_⟩
  · intro s ins id now s' h
    obtain ⟨h1, -, -, h4⟩ := insertOrder_eq_some h
    subst h4
    constructor
    · intro o ho hid
      rcases List.mem_append.mp ho with hmem | hmem
      · exact absurd hid (h1 o hmem)
      · simp only [List.mem_singleton] at hmem
        subst hmem
        show set_tracking_id ins.tracking_id now ≠ ""
        unfold set_tracking_id
        cases ins.tracking_id with
        | none => exact trackingFor_ne_empty now
        | some c =>
            by_cases hc : c = "" <;> simp [hc]
            exact trackingFor_ne_empty now
    · intro o ho
      exact List.mem_append_left _ ho
  · intro s oid u now s' hu h
    cases hf : s.orders.find? (fun x => x.id == oid) with
    | none =>
        have hss : s' = s := by
          unfold updateOrder at h
          rw [hf] at h
          exact (Option.some.inj h).symm
        subst hss
        exact fun o' ho' => ⟨o', ho', rfl, rfl⟩
    | some o =>
        obtain ⟨-, -, h3⟩ := updateOrder_eq_some hf h
        subst h3
        intro o' ho'
        rcases List.mem_cons.mp ho' with rfl | hmem
        · refine ⟨o, List.mem_of_find?_eq_some hf, rfl, ?_⟩
          simp [applyOrderUpd, hu]
        · exact ⟨o', (List.mem_filter.mp hmem).1, rfl, rfl⟩

/-- Witness for C5 at a concrete insert: the order inserted into the
empty store at epoch 42 has a non empty tracking code. -/
theorem tracking_id_unique_invariant_witness :
    (∀ o ∈ demoStore42.orders, o.id = 1 → o.tracking_id ≠ "") ∧
    (∀ o ∈ (emptyStore : Store).orders, o ∈ demoStore42.orders) :=
  tracking_id_unique_invariant.2.1 emptyStore {} 1 42 demoStore42 (by decide)

/-- Deleting a fabric is rejected exactly when an order still references
it, assuming the fabric foreign keys of the store are intact. -/
theorem deleteFabric_none_iff (s : Store) (fid : Nat)
    (href : ∀ o ∈ s.orders, refOk (s.fabrics.map (fun f => f.id)) o.fabric_id = true) :
    deleteFabric s fid = none ↔ ∃ o ∈ s.orders, o.fabric_id = some fid := by
  unfold deleteFabric
  split
  · rename_i hall
    simp only [List.all_eq_true] at hall
    constructor
    · intro hcontra
      exact absurd hcontra (by simp)
    · rintro ⟨o, ho, hof⟩
      exfalso
      have hro := hall o ho
      rw [hof] at hro
      simp [refOk, List.mem_filter, List.mem_map] at hro
      obtain ⟨f, ⟨hf, hfp⟩, hfid⟩ := hro
      exact hfp hfid
  · rename_i hall
    refine iff_of_true rfl ?_
    simp only [List.all_eq_true, not_forall] at hall
    obtain ⟨o, ho, hro⟩ := hall
    cases hofid : o.fabric_id with
    | none => rw [hofid] at hro; simp [refOk] at hro
    | some x =>
        rw [hofid] at hro
        have hfull := href o ho
        rw [hofid] at hfull
        simp only [refOk] at hfull hro
        simp [List.mem_map] at hfull
        obtain ⟨f, hf, hfx⟩ := hfull
        simp [List.mem_filter, List.mem_map] at hro
        by_cases hbe : f.id = fid
        · exact ⟨o, ho, by rw [hofid, ← hfx, hbe]⟩
        · exact absurd hfx (hro f hf (by simpa using hbe))

/-- Deleting a garment is rejected exactly when an order still references
it, assuming the garment foreign keys of the store are intact. -/
theorem deleteGarment_none_iff (s : Store) (gid : Nat)
    (href : ∀ o ∈ s.orders, refOk (s.garments.map (fun g => g.id)) o.garment_id = true) :
    deleteGarment s gid = none ↔ ∃ o ∈ s.orders, o.garment_id = some gid := by
  unfold deleteGarment
  split
  · rename_i hall
    simp only [List.all_eq_true] at hall
    constructor
    · intro hcontra
      exact absurd hcontra (by simp)
    · rintro ⟨o, ho, hof⟩
      exfalso
      have hro := hall o ho
      rw [hof] at hro
      simp [refOk, List.mem_filter, List.mem_map] at hro
      obtain ⟨g, ⟨hg, hgp⟩, hgid⟩ := hro
      exact hgp hgid
  · rename_i hall
    refine iff_of_true rfl ?_
    simp only [List.all_eq_true, not_forall] at hall
    obtain ⟨o, ho, hro⟩ := hall
    cases hogid : o.garment_id with
    | none => rw [hogid] at hro; simp [refOk] at hro
    | some x =>
        rw [hogid] at hro
        have hfull := href o ho
        rw [hogid] at hfull
        simp only [refOk] at hfull hro
        simp [List.mem_map] at hfull
        obtain ⟨g, hg, hgx⟩ := hfull
        simp [List.mem_filter, List.mem_map] at hro
        by_cases hbe : g.id = gid
        · exact ⟨o, ho, by rw [hogid, ← hgx, hbe]⟩
        · exact absurd hgx (hro g hg (by simpa using hbe))

/-- Claim C6 (amended): deleting a customer also removes exactly the
orders whose customer reference equals that customer (ON DELETE CASCADE)
and keeps every other customer; deleting a fabric or garment however is
rejected by the default NO ACTION foreign key behavior while any order still
references it (the deviation from the claim, which says such deletes
succeed), succeeds when unreferenced, and never touches the orders
table. -/
theorem delete_semantics_spec :
    (∀ (s : Store) (cid : Nat) (s' : Store),
        deleteCustomer s cid = some s' →
        (∀ o ∈ s.orders, o.customer_id = some cid → o ∉ s'.orders) ∧
        (∀ o ∈ s.orders, o.customer_id ≠ some cid → o ∈ s'.orders) ∧
        (∀ c ∈ s.customers, c.id ≠ cid → c ∈ s'.customers)) ∧
    (∀ (s : Store) (fid : Nat),
        (∀ o ∈ s.orders, refOk (s.fabrics.map (fun f => f.id)) o.fabric_id = true) →
        (deleteFabric s fid = none ↔ ∃ o ∈ s.orders, o.fabric_id = some fid)) ∧
    (∀ (s : Store) (fid : Nat) (s' : Store),
        deleteFabric s fid = some s' → s'.orders = s.orders) ∧
    (∀ (s : Store) (gid : Nat),
        (∀ o ∈ s.orders, refOk (s.garments.map (fun g => g.id)) o.garment_id = true) →
        (deleteGarment s gid = none ↔ ∃ o ∈ s.orders, o.garment_id = some gid)) ∧
    (∀ (s : Store) (gid : Nat) (s' : Store),
        deleteGarment s gid = some s' → s'.orders = s.orders) := by
  refine ⟨?_, deleteFabric_none_iff, fun s fid s' h => deleteFabric_orders h,
    deleteGarment_none_iff, fun s gid s' h => deleteGarment_orders h⟩
  intro s cid s' h
  unfold deleteCustomer at h
  obtain rfl := (Option.some.inj h).symm
  refine ⟨?_, ?_, ?_⟩
  · intro o ho hoc hmem
    have := (List.mem_filter.mp hmem).2
    simp [hoc] at this
  · intro o ho hoc
    refine List.mem_filter.mpr ⟨ho, ?_⟩
    simpa using hoc
  · intro c hc hcid
    refine List.mem_filter.mpr ⟨hc, ?_⟩
    simpa using hcid

/-- Witness for C6 on the concrete referenced fabric of demoStoreC6. -/
theorem delete_semantics_spec_witness :
    deleteFabric demoStoreC6 1 = none :=
  (delete_semantics_spec.2.1 demoStoreC6 1 (by decide)).mpr
    ⟨mkOrderRow { fabric_id := some 1 } 1 2, by decide, by decide⟩

/-- Claim C3: the ten policies as written (reading the boolean
expression of each policy as its predicate) decide exactly the rule
table; but PostgreSQL rejects the three public read policies, which are
declared FOR SELECT with a WITH CHECK clause (WITH CHECK cannot be
applied to SELECT or DELETE), so in the executed model the anonymous
reads of fabrics, garments and orders that the claim grants are denied. -/
theorem rls_select_policies_bug :
    (∀ (c : Caller) (t : Tbl) (cmd : SqlCmd) (r : RowCtx),
        allows policiesIntended c t cmd r = specAllows c t cmd r) ∧
    allows policiesExecuted { kind := .anon } Tbl.fabrics SqlCmd.select { id := 1 } = false ∧
    allows policiesExecuted { kind := .anon } Tbl.garments SqlCmd.select { id := 1 } = false ∧
    allows policiesExecuted { kind := .anon } Tbl.orders SqlCmd.select { id := 1 } = false ∧
    specAllows { kind := .anon } Tbl.fabrics SqlCmd.select { id := 1 } = true ∧
    specAllows { kind := .anon } Tbl.orders SqlCmd.select { id := 1 } = true := by
  refine ⟨?_, by decide, by decide, by decide, by decide, by decide⟩
  intro c t cmd r
  obtain ⟨k, uid, jr⟩ := c
  rw [Bool.eq_iff_iff]
  cases k <;> cases t <;> cases cmd <;>
    simp [allows, policiesIntended, specAllows, cmdApplies, roleApplies, isAdmin]

/-- Claim C8 (amended): for a non empty search term each screen keeps
exactly the rows matching its own field subset case insensitively —
admin fabrics: name, material or color (not description); storefront
garments: name, category or description; admin products: name or
category (not description) — and, when the categorical filter is not
the string all, additionally exactly the rows whose material (fabrics) or
category (garments) equals it. -/
theorem filter_fields_spec (term : String) (hterm : term ≠ "") :
    (∀ (l : List Fabric) (mf : String) (f : Fabric),
        f ∈ AdminFabrics.filterFabrics l term mf ↔
          f ∈ l ∧
          (containsCI f.name term = true ∨ containsCI f.material term = true ∨
            containsCI f.color term = true) ∧
          (mf ≠ "all" → f.material = mf)) ∧
    (∀ (l : List Garment) (cat : String) (g : Garment),
        g ∈ GarmentsPage.filterGarments l term cat ↔
          g ∈ l ∧
          (containsCI g.name term = true ∨ containsCI g.category term = true ∨
            containsCI g.description term = true) ∧
          (cat ≠ "all" → g.category = cat)) ∧
    (∀ (l : List Garment) (cat : String) (g : Garment),
        g ∈ AdminProducts.filterGarments l term cat ↔
          g ∈ l ∧
          (containsCI g.name term = true ∨ containsCI g.category term = true) ∧
          (cat ≠ "all" → g.category = cat)) := by
  refine ⟨?_, ?_, ?_⟩
  · intro l mf f
    by_cases hmf : mf = "all" <;>
      simp [AdminFabrics.filterFabrics, hterm, hmf, List.mem_filter] <;> tauto
  · intro l cat g
    by_cases hcat : cat = "all" <;>
      simp [GarmentsPage.filterGarments, hterm, hcat, List.mem_filter] <;> tauto
  · intro l cat g
    by_cases hcat : cat = "all" <;>
      simp [AdminProducts.filterGarments, hterm, hcat, List.mem_filter] <;> tauto

/-- A sample fabric whose name and material match the term silk. -/
def silkFabric : Fabric :=
  { id := 1, name := "Premium Silk", material := "Silk", color := "Golden" }

/-- Witness for C8: a matching fabric is kept by the admin filter. -/
theorem filter_fields_spec_witness :
    silkFabric ∈ AdminFabrics.filterFabrics [silkFabric] "silk" "all" :=
  ((filter_fields_spec "silk" (by decide)).1 [silkFabric] "all" silkFabric).mpr
    ⟨by decide, Or.inl (by decide), by decide⟩

/-- Toggling the featured flag of the same id twice restores the
fetched collection. -/
theorem toggleFeatured_involution (l : List Fabric) (fid : Nat) :
    AdminFabrics.toggleFeatured (AdminFabrics.toggleFeatured l fid) fid = l := by
  cases hf : l.find? (fun f => f.id == fid) with
  | none =>
      unfold AdminFabrics.toggleFeatured
      rw [hf, hf]
  | some f0 =>
      have hp := List.find?_some hf
      have hm := List.mem_of_find?_eq_some hf
      unfold AdminFabrics.toggleFeatured
      rw [hf]
      have hmem2 : (if f0.id == fid then { f0 with featured := !f0.featured } else f0) ∈
          l.map (fun f => if f.id == fid then { f with featured := !f.featured } else f) :=
        List.mem_map.mpr ⟨f0, hm, rfl⟩
      have hp2 : ((if f0.id == fid then { f0 with featured := !f0.featured } else f0).id
          == fid) = true := by
        rw [if_pos hp]
        exact hp
      cases hf2 : (l.map (fun f =>
          if f.id == fid then { f with featured := !f.featured } else f)).find?
          (fun f => f.id == fid) with
      | none =>
          exfalso
          have : ((l.map (fun f => if f.id == fid then { f with featured := !f.featured }
              else f)).find? (fun f => f.id == fid)).isSome := by
            rw [List.find?_isSome]
            exact ⟨_, hmem2, hp2⟩
          rw [hf2] at this
          exact absurd this (by simp)
      | some f1 =>
          rw [List.map_map]
          have hid : ∀ x ∈ l, ((fun f => if f.id == fid then
              { f with featured := !f.featured } else f) ∘ (fun f => if f.id == fid then
              { f with featured := !f.featured } else f)) x = x := by
            intro x hx
            by_cases hxid : (x.id == fid) = true <;>
              simp [Function.comp, hxid]
          rw [List.map_congr_left hid]
          simp

/-- Claim C10: for a fabric present in the fetched collection,
toggleFeatured keeps the collection length, keeps every fabric with a
different id unchanged, replaces the featured flag of the matching fabric by
its negation leaving its other fields unchanged, and applied twice
restores the original collection. -/
theorem toggleFeatured_spec :
    ∀ (fabrics : List Fabric) (fid : Nat) (f : Fabric),
      f ∈ fabrics → f.id = fid →
      (AdminFabrics.toggleFeatured fabrics fid).length = fabrics.length ∧
      (∀ g ∈ fabrics, g.id ≠ fid → g ∈ AdminFabrics.toggleFeatured fabrics fid) ∧
      (∀ g ∈ fabrics, g.id = fid →
        { g with featured := !g.featured } ∈ AdminFabrics.toggleFeatured fabrics fid) ∧
      AdminFabrics.toggleFeatured (AdminFabrics.toggleFeatured fabrics fid) fid = fabrics
    := by
  intro fabrics fid f hf hfid
  have hfind : (fabrics.find? (fun x => x.id == fid)).isSome := by
    rw [List.find?_isSome]
    exact ⟨f, hf, by simp [hfid]⟩
  obtain ⟨f0, hf0⟩ := Option.isSome_iff_exists.mp hfind
  have hmap : AdminFabrics.toggleFeatured fabrics fid =
      fabrics.map (fun g => if g.id == fid then { g with featured := !g.featured } else g)
    := by
    unfold AdminFabrics.toggleFeatured
    rw [hf0]
  refine ⟨by rw [hmap]; simp, ?_, ?_, toggleFeatured_involution fabrics fid⟩
  · intro g hg hgid
    rw [hmap]
    exact List.mem_map.mpr ⟨g, hg, by simp [hgid]⟩
  · intro g hg hgid
    rw [hmap]
    exact List.mem_map.mpr ⟨g, hg, by simp [hgid]⟩

/-- A featured sample fabric for the C10 witness. -/
def silkFabric2 : Fabric :=
  { id := 2, name := "Banarasi Silk", material := "Silk", color := "Red", featured := true }

/-- Witness for C10 on a one element collection. -/
theorem toggleFeatured_spec_witness :
    (AdminFabrics.toggleFeatured [silkFabric2] 2).length = 1 ∧
    (∀ g ∈ [silkFabric2], g.id ≠ 2 → g ∈ AdminFabrics.toggleFeatured [silkFabric2] 2) ∧
    (∀ g ∈ [silkFabric2], g.id = 2 →
      { g with featured := !g.featured } ∈ AdminFabrics.toggleFeatured [silkFabric2] 2) ∧
    AdminFabrics.toggleFeatured (AdminFabrics.toggleFeatured [silkFabric2] 2) 2
      = [silkFabric2] :=
  toggleFeatured_spec [silkFabric2] 2 silkFabric2 (by decide) (by decide)
